import Mathlib

/-!
A verification development for the pysqlsync type-to-catalog conversion
engine (`pysqlsync/formation/py_to_sql.py`).

The Python module is shallowly embedded: Python types that can appear as
dataclass field types are modelled by the inductive `PyType`; the converter
functions (`simple_type_to_sql_data_type`, `member_to_sql_data_type`,
`member_to_column`, `dataclass_to_table`, `dataclass_to_constraints`,
`_enum_table`, `dataclasses_to_catalog`, ...) are translated one-to-one
into Lean functions over that embedding.  Fallible Python code (raising
`TypeError`) is modelled with `Except ConvError`.

Supporting modules of the repository that `py_to_sql.py` imports but whose
sources are not available (`formation/object_types.py`,
`formation/inspection.py`, `model/data_types.py`, `model/id_types.py`,
`model/properties.py`, and the `strong_typing` helpers) are modelled from
the specification; each such definition carries a doc comment starting
with "Modelled from the spec:".
-/

/-! ## SQL-side data model -/

/-- Modelled from the spec: qualified object names (`model/id_types.py` is
not in the sources).  `qualifiedId` keeps namespace and local name distinct
(`QualifiedId`), `prefixedId` folds the namespace into the local name with a
separator when rendered (`PrefixedId`), `globalId` is an unqualified global
name (`GlobalId`). -/
inductive SupportsQualifiedId where
  | qualifiedId (ns : Option String) (objectName : String)
  | prefixedId (ns : Option String) (objectName : String)
  | globalId (objectName : String)
  deriving DecidableEq, Repr

/-- Modelled from the spec: the compact single-string form of a qualified
name; the namespace is folded into the local name with a separator. -/
def SupportsQualifiedId.compactId : SupportsQualifiedId → String
  | .qualifiedId (some ns) n => ns ++ "." ++ n
  | .qualifiedId none n => n
  | .prefixedId (some ns) n => ns ++ "__" ++ n
  | .prefixedId none n => n
  | .globalId n => n

/-- The base object name component of a qualified name. -/
def SupportsQualifiedId.objName : SupportsQualifiedId → String
  | .qualifiedId _ n => n
  | .prefixedId _ n => n
  | .globalId n => n

/-- Modelled from the spec: the closed set of SQL type descriptors
(`model/data_types.py` is not in the sources).  Parameters follow the
constructor calls visible in `py_to_sql.py` (e.g. `SqlIntegerType(8)`,
`SqlVariableCharacterType()` with an optional limit). -/
inductive SqlDataType where
  | booleanT
  | integerT (width : Nat)
  | realT
  | doubleT
  | floatT
  | decimalT
  | fixedCharT (limit : Option Nat)
  | varCharT (limit : Option Nat)
  | timestampT
  | dateT
  | timeT
  | intervalT
  | uuidT
  | jsonT
  | enumT (values : List String)
  | arrayT (elem : SqlDataType)
  | userDefinedT (name : SupportsQualifiedId)
  deriving DecidableEq, Repr

/-- Errors raised by the converter (Python raises `TypeError` with a
message; the message strings below mirror the source's messages with the
interpolated type representations elided).  `keyError` models Python's
`KeyError` from `set.pop()` on an empty set, `fuelExhausted` is an artifact
of the fuel-based recursion and is unreachable for well-sized fuel. -/
inductive ConvError where
  | typeError (msg : String)
  | wrapped (cls : String) (inner : ConvError)
  | keyError
  | fuelExhausted
  deriving DecidableEq, Repr

/-! ## Python-side data model -/

/-- Modelled from the spec: the per-field flags delivered by the entity
introspection adapter (`model/properties.py` / `formation/inspection.py`
are not in the sources): nullability, identity, uniqueness and the
primary-key marker. -/
structure FieldProps where
  nullable : Bool
  is_identity : Bool
  is_unique : Bool
  is_primary_key : Bool
  deriving DecidableEq, Repr

/-- A Python value, as used for enum member values and field defaults. -/
inductive PyValue where
  | vNone
  | vBool (b : Bool)
  | vInt (i : Int)
  | vStr (s : String)
  deriving DecidableEq, Repr

/-- The kind (Python runtime type) of a `PyValue`; used to model
`enum_value_types`. -/
inductive ValueKind where
  | noneK | boolK | intK | strK
  deriving DecidableEq, Repr

def PyValue.kind : PyValue → ValueKind
  | .vNone => .noneK
  | .vBool _ => .boolK
  | .vInt _ => .intK
  | .vStr _ => .strK

/-- Python `str()` of a value, used for inline enum labels
(`[str(e.value) for e in typ]`). -/
def PyValue.pyStr : PyValue → String
  | .vNone => "None"
  | .vBool true => "True"
  | .vBool false => "False"
  | .vInt i => toString i
  | .vStr s => s

/-- Modelled from the spec: SQL literal rendering of a Python value
(`constant` in the missing `model/data_types.py`). -/
def constant : PyValue → String
  | .vNone => "NULL"
  | .vBool true => "TRUE"
  | .vBool false => "FALSE"
  | .vInt i => toString i
  | .vStr s => "\x27" ++ s ++ "\x27"

/-- The non-type data of a dataclass field: name, introspected flags,
declared default (`none` models `dataclasses.MISSING`, `some .vNone`
models a declared default of Python `None`), and per-field documentation. -/
structure FieldSig where
  fname : String
  props : FieldProps
  defaultVal : Option PyValue
  doc : Option String
  deriving DecidableEq, Repr

/-- A Python `enum.Enum` subclass: class name, defining module, and the
ordered member values. -/
structure EnumDef where
  name : String
  module : String
  values : List PyValue
  deriving DecidableEq, Repr

mutual
/-- The fragment of the Python type algebra handled by the converter.
`pyStrMaxLength n` is `Annotated[str, MaxLength(n)]` (the only annotated
form the converter itself constructs); `pyOpaque` is an arbitrary
user-defined class reaching the `isinstance(typ, type)` fallback;
`pyDataclass` embeds a dataclass together with its fields (entities are
dataclasses with a primary-key field).  `Literal` types and forward
references are not modelled; no claim depends on them. -/
inductive PyType where
  | pyBool | pyInt | pyFloat | pyStr
  | pyInt8 | pyInt16 | pyInt32 | pyInt64
  | pyUInt8 | pyUInt16 | pyUInt32 | pyUInt64
  | pyFloat32 | pyFloat64
  | pyDecimal | pyDatetime | pyDate | pyTime | pyTimedelta
  | pyUuid | pyJson | pyIPv4 | pyIPv6
  | pyStrMaxLength (limit : Nat)
  | pyEnum (e : EnumDef)
  | pyOpaque (module name : String)
  | pyList (item : PyType)
  | pyUnion (members : PyTypes)
  | pyDataclass (module name : String) (fields : PyFields)
  deriving DecidableEq, Repr

/-- A list of Python types (union members). -/
inductive PyTypes where
  | nil
  | cons (t : PyType) (rest : PyTypes)
  deriving DecidableEq, Repr

/-- A list of dataclass fields. -/
inductive PyFields where
  | nil
  | cons (sig : FieldSig) (t : PyType) (rest : PyFields)
  deriving DecidableEq, Repr
end

def PyTypes.toList : PyTypes → List PyType
  | .nil => []
  | .cons t r => t :: r.toList

def PyFields.toList : PyFields → List (FieldSig × PyType)
  | .nil => []
  | .cons s t r => (s, t) :: r.toList

mutual
/-- Nesting depth of a type; used as recursion fuel for the member-type
mapper. -/
def PyType.depth : PyType → Nat
  | .pyList t => t.depth + 1
  | .pyUnion ms => ms.depthL + 1
  | .pyDataclass _ _ fs => fs.depthF + 1
  | _ => 1

def PyTypes.depthL : PyTypes → Nat
  | .nil => 0
  | .cons t r => max t.depth r.depthL

def PyFields.depthF : PyFields → Nat
  | .nil => 0
  | .cons _ t r => max t.depth r.depthF
end

theorem PyType.depth_pos (t : PyType) : 1 ≤ t.depth := by
  cases t <;> simp [PyType.depth]

theorem PyTypes.depthL_le_of_mem :
    ∀ {ms : PyTypes} {t : PyType}, t ∈ ms.toList → t.depth ≤ ms.depthL
  | .nil, t, h => by simp [PyTypes.toList] at h
  | .cons t' r, t, h => by
    simp only [PyTypes.toList, List.mem_cons] at h
    rcases h with rfl | h
    · exact le_max_left _ _
    · exact le_trans (PyTypes.depthL_le_of_mem h) (le_max_right _ _)

theorem PyFields.depthF_le_of_mem :
    ∀ {fs : PyFields} {s : FieldSig} {t : PyType}, (s, t) ∈ fs.toList → t.depth ≤ fs.depthF
  | .nil, _, t, h => by simp [PyFields.toList] at h
  | .cons s' t' r, s, t, h => by
    simp only [PyFields.toList, List.mem_cons] at h
    rcases h with heq | h
    · cases heq; exact le_max_left _ _
    · exact le_trans (PyFields.depthF_le_of_mem h) (le_max_right _ _)

/-! ## Introspection predicates -/

/-- The field list of a dataclass type (`dataclass_fields`, with field
properties already extracted by the introspection adapter); empty for
non-dataclass types. -/
def fieldsOf : PyType → List (FieldSig × PyType)
  | .pyDataclass _ _ fs => fs.toList
  | _ => []

/-- The primary-key field of a field list. -/
def findPKfield (fs : List (FieldSig × PyType)) : Option (FieldSig × PyType) :=
  fs.find? (fun f => f.1.props.is_primary_key)

/-- Modelled from the spec: `dataclass_primary_key_name`
(`formation/inspection.py` is not in the sources). -/
def pkNameOf (t : PyType) : Option String :=
  (findPKfield (fieldsOf t)).map (fun f => f.1.fname)

/-- Modelled from the spec: `dataclass_primary_key_type`. -/
def pkTypeOf (t : PyType) : Option PyType :=
  (findPKfield (fieldsOf t)).map (fun f => f.2)

/-- Modelled from the spec: an entity type is a dataclass with a
distinguished primary-key field (`is_entity_type`). -/
def is_entity_type : PyType → Bool
  | .pyDataclass _ _ fs => (findPKfield fs.toList).isSome
  | _ => false

/-- Modelled from the spec: a struct type is a dataclass without a
primary key (`is_struct_type`). -/
def is_struct_type : PyType → Bool
  | .pyDataclass _ _ fs => (findPKfield fs.toList).isNone
  | _ => false

def is_type_enum : PyType → Bool
  | .pyEnum _ => true
  | _ => false

def is_dataclass_type : PyType → Bool
  | .pyDataclass _ _ _ => true
  | _ => false

/-- Modelled from the spec: `is_simple_type` — primitives, annotated
primitives and enumeration types. -/
def is_simple_type : PyType → Bool
  | .pyList _ => false
  | .pyUnion _ => false
  | .pyDataclass _ _ _ => false
  | .pyOpaque _ _ => false
  | _ => true

/-- The defining module of a named type. -/
def moduleOf : PyType → String
  | .pyDataclass md _ _ => md
  | .pyEnum e => e.module
  | .pyOpaque md _ => md
  | _ => ""

/-- The `__name__` of a named type, used as the sort key in the catalog
assembler. -/
def typeIdName : PyType → String
  | .pyDataclass _ n _ => n
  | .pyEnum e => e.name
  | .pyOpaque _ n => n
  | _ => ""

theorem pkType_depth_lt {d kt : PyType} (h : pkTypeOf d = some kt) :
    kt.depth < d.depth := by
  cases d
  case pyDataclass md nm fs =>
    simp only [pkTypeOf, fieldsOf, findPKfield, Option.map_eq_some'] at h
    obtain ⟨f, hf, hft⟩ := h
    have hmem := List.mem_of_find?_eq_some hf
    have hle : kt.depth ≤ fs.depthF := by
      subst hft
      exact PyFields.depthF_le_of_mem (s := f.1) (by simpa using hmem)
    simp only [PyType.depth]
    omega
  all_goals simp [pkTypeOf, fieldsOf, findPKfield] at h

/-! ## Converter configuration -/

/-- `EnumMode`: how enumeration types are converted. -/
inductive EnumMode where
  | TYPE | INLINE | RELATION | CHECK
  deriving DecidableEq, Repr

/-- `StructMode`: how non-entity dataclass types are converted. -/
inductive StructMode where
  | TYPE | JSON
  deriving DecidableEq, Repr

/-- `ArrayMode`: how sequence types are converted. -/
inductive ArrayMode where
  | ARRAY | JSON
  deriving DecidableEq, Repr

/-- `DataclassConverterOptions`.  The namespace mapping is modelled as a
total function from module name to optional schema name (Python's
`NamespaceMapping.get` raises for unmapped modules; the model restricts
attention to inputs whose modules are all mapped).  The substitution
dictionary is modelled as a partial map on types.  The object factory and
the skip-annotation set are not modelled (the factory only chooses
constructor subclasses; no annotation other than the converter's own
`MaxLength` appears in the modelled type fragment). -/
structure ConverterOptions where
  enum_mode : EnumMode := .TYPE
  struct_mode : StructMode := .TYPE
  array_mode : ArrayMode := .ARRAY
  extra_numeric_types : Bool := false
  qualified_names : Bool := true
  namespaces : String → Option String := fun _ => none
  foreign_constraints : Bool := true
  substitutions : PyType → Option SqlDataType := fun _ => none

/-- `DataclassConverter.create_qualified_id`. -/
def create_qualified_id (opts : ConverterOptions) (module objectName : String) :
    SupportsQualifiedId :=
  if opts.qualified_names then
    .qualifiedId (opts.namespaces module) objectName
  else
    .prefixedId (opts.namespaces module) objectName

/-- Replace every dot with an underscore (the compact id separator is the
single character dot, so the source's `str.replace(".", "_")` is a
character-wise replacement). -/
def replaceDotChar : List Char → List Char
  | [] => []
  | c :: cs => (if c = Char.ofNat 46 then Char.ofNat 95 else c) :: replaceDotChar cs

def replaceDots (s : String) : String := ⟨replaceDotChar s.data⟩

/-- `DataclassConverter.create_qualified_prefix`: the compact id with dots
replaced by underscores. -/
def create_qualified_prefix_id (opts : ConverterOptions) (t : PyType) : String :=
  replaceDots (create_qualified_id opts (moduleOf t) (typeIdName t)).compactId

/-! ## SQL object model (tables, columns, constraints, catalog) -/

/-- Modelled from the spec: a table column (`formation/object_types.py` is
not in the sources): name, type descriptor, nullable flag, optional default
expression, identity flag, optional description. -/
structure Column where
  name : String
  dataType : SqlDataType
  nullable : Bool
  defaultVal : Option String
  identity : Bool
  description : Option String
  deriving DecidableEq, Repr

/-- Modelled from the spec: the target of a foreign-key constraint. -/
structure ConstraintReference where
  table : SupportsQualifiedId
  columns : List String
  deriving DecidableEq, Repr

/-- Modelled from the spec: table constraints — unique, check, foreign key,
discriminated foreign key. -/
inductive Constraint where
  | unique (name : String) (columns : List String)
  | check (name : String) (condition : String)
  | foreign (name : String) (columns : List String) (ref : ConstraintReference)
  | discriminated (name : String) (columns : List String) (refs : List ConstraintReference)
  deriving DecidableEq, Repr

/-- Modelled from the spec: a table object.  `constraints` is `none` when
the converter passed Python `None` (empty constraint list). -/
structure Table where
  name : SupportsQualifiedId
  columns : List Column
  primaryKey : List String
  constraints : Option (List Constraint)
  description : Option String
  deriving DecidableEq, Repr

/-- Modelled from the spec: a native SQL enumeration type definition. -/
structure EnumTypeDef where
  name : SupportsQualifiedId
  values : List String
  deriving DecidableEq, Repr

/-- Modelled from the spec: a member of a composite (struct) type. -/
structure StructMember where
  name : String
  dataType : SqlDataType
  description : Option String
  deriving DecidableEq, Repr

/-- Modelled from the spec: a composite (struct) type. -/
structure StructType where
  name : SupportsQualifiedId
  members : List StructMember
  description : Option String
  deriving DecidableEq, Repr

/-- Modelled from the spec: a namespace groups enum types, struct types and
tables; the name is the mapped schema name or empty for the default. -/
structure Namespace where
  name : String
  enums : List EnumTypeDef
  structs : List StructType
  tables : List Table
  deriving DecidableEq, Repr

/-- Modelled from the spec: the catalog is the ordered namespace list. -/
structure Catalog where
  namespaces : List Namespace
  deriving DecidableEq, Repr

/-! ## List and dictionary combinators -/

/-- Error-propagating map over a list (Python list comprehension over
fallible element conversions, or a loop of appends that may raise). -/
def mapE (g : α → Except ε β) : List α → Except ε (List β)
  | [] => .ok []
  | x :: xs => do
    let y ← g x
    let ys ← mapE g xs
    .ok (y :: ys)

theorem exbind_ok {x : Except ε α} {f : α → Except ε β} {c : β} :
    (x >>= f) = .ok c ↔ ∃ a, x = .ok a ∧ f a = .ok c := by
  cases x with
  | ok a => simp [Bind.bind, Except.bind]
  | error e => simp [Bind.bind, Except.bind]

theorem exbind_ok' {x : Except ε α} {f : α → Except ε β} {c : β} :
    Except.bind x f = .ok c ↔ ∃ a, x = .ok a ∧ f a = .ok c := by
  cases x with
  | ok a => simp [Except.bind]
  | error e => simp [Except.bind]

theorem mapE_ok_mem {g : α → Except ε β} {xs : List α} {ys : List β} {x : α}
    (h : mapE g xs = .ok ys) (hx : x ∈ xs) : ∃ y, g x = .ok y ∧ y ∈ ys := by
  induction xs generalizing ys with
  | nil => simp at hx
  | cons a as ih =>
    simp only [mapE] at h
    rw [exbind_ok] at h
    obtain ⟨y, hy, h⟩ := h
    rw [exbind_ok] at h
    obtain ⟨ys', hys', h⟩ := h
    simp only [pure, Except.pure, Except.ok.injEq] at h
    subst h
    rcases List.mem_cons.mp hx with rfl | hx
    · exact ⟨y, hy, List.mem_cons_self _ _⟩
    · obtain ⟨y', hy', hmem⟩ := ih hys' hx
      exact ⟨y', hy', List.mem_cons_of_mem _ hmem⟩

theorem mapE_congr {f g : α → Except ε β} {xs : List α}
    (h : ∀ x ∈ xs, f x = g x) : mapE f xs = mapE g xs := by
  induction xs with
  | nil => rfl
  | cons a as ih =>
    simp only [mapE]
    rw [h a (List.mem_cons_self _ _), ih (fun x hx => h x (List.mem_cons_of_mem _ hx))]

/-- Python `dict.setdefault(key, []).append(value)` on a
module-name-to-object-list dictionary (insertion order preserved). -/
def dictAppend (d : List (String × List α)) (k : String) (x : α) :
    List (String × List α) :=
  match d with
  | [] => [(k, [x])]
  | (k', xs) :: rest =>
    if k' = k then (k', xs ++ [x]) :: rest else (k', xs) :: dictAppend rest k x

/-- All values of a module-keyed dictionary of object lists, flattened in
dictionary insertion order. -/
def dictValues : List (String × List α) → List α
  | [] => []
  | p :: rest => p.2 ++ dictValues rest

theorem mem_dictValues_dictAppend :
    ∀ {d : List (String × List α)} {k : String} {x y : α},
    y ∈ dictValues (dictAppend d k x) ↔ y ∈ dictValues d ∨ y = x
  | [], k, x, y => by simp [dictAppend, dictValues]
  | (k', xs) :: rest, k, x, y => by
    by_cases hk : k' = k
    · simp only [dictAppend, if_pos hk, dictValues, List.mem_append, List.mem_singleton]
      tauto
    · simp only [dictAppend, if_neg hk, dictValues, List.mem_append]
      rw [mem_dictValues_dictAppend (d := rest) (k := k) (x := x) (y := y)]
      tauto

/-- Fold a list of (module, object) pairs into the dictionary. -/
def addPairs (d : List (String × List α)) (ps : List (String × α)) :
    List (String × List α) :=
  ps.foldl (fun acc p => dictAppend acc p.1 p.2) d

theorem mem_dictValues_addPairs :
    ∀ {ps : List (String × α)} {d : List (String × List α)} {y : α},
    y ∈ dictValues (addPairs d ps) ↔ y ∈ dictValues d ∨ ∃ p ∈ ps, p.2 = y
  | [], d, y => by simp [addPairs]
  | p :: rest, d, y => by
    have h1 : y ∈ dictValues (addPairs (dictAppend d p.1 p.2) rest) ↔
        y ∈ dictValues (dictAppend d p.1 p.2) ∨ ∃ q ∈ rest, q.2 = y :=
      mem_dictValues_addPairs
    have h3 : addPairs d (p :: rest) = addPairs (dictAppend d p.1 p.2) rest := rfl
    rw [h3, h1, mem_dictValues_dictAppend]
    constructor
    · rintro ((h | rfl) | ⟨q, hq, rfl⟩)
      · exact Or.inl h
      · exact Or.inr ⟨p, List.mem_cons_self _ _, rfl⟩
      · exact Or.inr ⟨q, List.mem_cons_of_mem _ hq, rfl⟩
    · rintro (h | ⟨q, hq, rfl⟩)
      · exact Or.inl (Or.inl h)
      · rcases List.mem_cons.mp hq with rfl | hq
        · exact Or.inl (Or.inr rfl)
        · exact Or.inr ⟨q, hq, rfl⟩

/-- Dictionary lookup with empty-list default (`enums.get(module, [])`). -/
def lookupD (d : List (String × List α)) (k : String) : List α :=
  match d.find? (fun p => p.1 = k) with
  | some p => p.2
  | none => []

/-- Byte-wise lexicographic comparison on character lists (kernel-computable
string ordering used for the deterministic name sorts). -/
def strLeB : List Char → List Char → Bool
  | [], _ => true
  | _ :: _, [] => false
  | a :: as, b :: bs =>
    if a.toNat < b.toNat then true
    else if b.toNat < a.toNat then false
    else strLeB as bs

/-- Lexicographic string comparison (Python string ordering for `sorted`). -/
def keyLe (s t : String) : Bool := strLeB s.data t.data

/-- Stable insertion into a name-sorted list (`sorted` with a name key;
Python's sort is stable). -/
def insertByKey (key : α → String) (x : α) : List α → List α
  | [] => [x]
  | y :: ys => if keyLe (key x) (key y) then x :: y :: ys else y :: insertByKey key x ys

/-- Stable sort by a string key (`sorted(..., key=lambda t: t.__name__)`). -/
def sortByKey (key : α → String) : List α → List α
  | [] => []
  | x :: xs => insertByKey key x (sortByKey key xs)

theorem mem_insertByKey {key : α → String} {x y : α} :
    ∀ {l : List α}, y ∈ insertByKey key x l ↔ y = x ∨ y ∈ l
  | [] => by simp [insertByKey]
  | z :: zs => by
    simp only [insertByKey]
    split
    · simp
    · rw [List.mem_cons, List.mem_cons, mem_insertByKey]
      tauto

theorem mem_sortByKey {key : α → String} {y : α} :
    ∀ {l : List α}, y ∈ sortByKey key l ↔ y ∈ l
  | [] => by simp [sortByKey]
  | x :: xs => by
    simp only [sortByKey]
    rw [mem_insertByKey, List.mem_cons, mem_sortByKey]

/-! ## Enumeration helpers (`py_to_sql.py`) -/

/-- `ENUM_NAME_LENGTH`: maximum length for an enumeration string value. -/
def ENUM_NAME_LENGTH : Nat := 64

/-- `ENUM_LABEL_TYPE = Annotated[str, MaxLength(ENUM_NAME_LENGTH)]`. -/
def ENUM_LABEL_TYPE : PyType := .pyStrMaxLength ENUM_NAME_LENGTH

/-- `enum_value_type`: the unique runtime type of the enum's member values;
raises when the members mix value types; a string value type is replaced by
`ENUM_LABEL_TYPE`.  (Python's `set.pop()` on the empty set of an empty
enumeration raises `KeyError`, modelled by `ConvError.keyError`.) -/
def enum_value_type (e : EnumDef) : Except ConvError PyType :=
  let value_kinds := (e.values.map PyValue.kind).dedup
  if value_kinds.length > 1 then
    .error (.typeError ("inconsistent enumeration value types for type " ++ e.name))
  else
    match value_kinds with
    | [.strK] => .ok ENUM_LABEL_TYPE
    | [.intK] => .ok .pyInt
    | [.boolK] => .ok .pyBool
    | [.noneK] => .ok (.pyOpaque "builtins" "NoneType")
    | _ => .error .keyError

/-- A union member admissible in an extensible enumeration: plain or
annotated `str`, or an enumeration type (`unwrap_annotated_type` is
implicit: the only annotated form in the model is annotated `str`). -/
def is_extensible_member : PyType → Bool
  | .pyStr => true
  | .pyStrMaxLength _ => true
  | .pyEnum _ => true
  | _ => false

/-- `is_extensible_enum_type`: a union all of whose members are `str` or
enumeration types. -/
def is_extensible_enum_type : PyType → Bool
  | .pyUnion ms => ms.toList.all is_extensible_member
  | _ => false

/-- `unwrap_extensible_enum_type`: the first enumeration member of the
union; raises if there is none. -/
def unwrap_extensible_enum : PyType → Except ConvError EnumDef
  | .pyUnion ms =>
    match (ms.toList.filterMap (fun m =>
        match m with | .pyEnum e => some e | _ => none)).head? with
    | some e => .ok e
    | none => .error (.typeError
        "extensible enum types are of the form E-or-str where E is a subclass of enum.Enum")
  | _ => .error (.typeError
      "extensible enum types are of the form E-or-str where E is a subclass of enum.Enum")

/-- `dataclass_enum_fields`: the fields whose type is a plain enumeration
type, as (field name, enum) pairs. -/
def dataclass_enum_fields (cls : PyType) : List (String × EnumDef) :=
  (fieldsOf cls).filterMap (fun f =>
    match f.2 with
    | .pyEnum e => some (f.1.fname, e)
    | _ => none)

/-- `dataclass_extensible_enum_fields`: the fields whose type is an
extensible enumeration, paired with the unwrapped enum type (unwrapping a
union without an enum member raises, as in the source). -/
def dataclass_extensible_enum_fields (cls : PyType) :
    Except ConvError (List (String × EnumDef)) :=
  mapE (fun f => do
      let e ← unwrap_extensible_enum f.2
      pure (f.1.fname, e))
    ((fieldsOf cls).filter (fun f => is_extensible_enum_type f.2))

/-! ## The type mapper -/

/-- Modelled from the spec: `SqlDataType.parse_meta` for a `MaxLength`
annotation applied to the provisional descriptor: character types take the
length as their limit; other descriptors reject the annotation. -/
def applyMaxLength : SqlDataType → Nat → Except ConvError SqlDataType
  | .varCharT _, n => .ok (.varCharT (some n))
  | .fixedCharT _, n => .ok (.fixedCharT (some n))
  | _, _ => .error (.typeError "unsupported annotated Python type")

/-- `DataclassConverter.simple_type_to_sql_data_type` restricted to
non-enumeration types: the substitution lookup, the built-in primitive
rules, and the annotated-string branch (`Annotated[str, MaxLength(n)]`
resolves `str` — substituted or provisional `SqlVariableCharacterType()` —
then applies the annotation).  The enumeration branch lives in
`simple_type_to_sql_data_type`, which dispatches here; enum value types are
never themselves enums, so the source's recursion factors through this
function. -/
def simple_nonenum_to_sql (opts : ConverterOptions) (typ : PyType) :
    Except ConvError SqlDataType :=
  match opts.substitutions typ with
  | some s => .ok s
  | none =>
    match typ with
    | .pyBool => .ok .booleanT
    | .pyInt => .ok (.integerT 8)
    | .pyFloat => .ok .doubleT
    | .pyInt8 =>
      if opts.extra_numeric_types then .ok (.userDefinedT (.globalId "int1"))
      else .ok (.integerT 2)
    | .pyInt16 => .ok (.integerT 2)
    | .pyInt32 => .ok (.integerT 4)
    | .pyInt64 => .ok (.integerT 8)
    | .pyUInt8 =>
      if opts.extra_numeric_types then .ok (.userDefinedT (.globalId "uint1"))
      else .ok (.integerT 2)
    | .pyUInt16 =>
      if opts.extra_numeric_types then .ok (.userDefinedT (.globalId "uint2"))
      else .ok (.integerT 2)
    | .pyUInt32 =>
      if opts.extra_numeric_types then .ok (.userDefinedT (.globalId "uint4"))
      else .ok (.integerT 4)
    | .pyUInt64 =>
      if opts.extra_numeric_types then .ok (.userDefinedT (.globalId "uint8"))
      else .ok (.integerT 8)
    | .pyFloat32 => .ok .realT
    | .pyFloat64 => .ok .doubleT
    | .pyStr => .ok (.varCharT none)
    | .pyDecimal => .ok .decimalT
    | .pyDatetime => .ok .timestampT
    | .pyDate => .ok .dateT
    | .pyTime => .ok .timeT
    | .pyTimedelta => .ok .intervalT
    | .pyUuid => .ok .uuidT
    | .pyJson => .ok .jsonT
    | .pyIPv4 => .ok (.userDefinedT (.globalId "inet"))
    | .pyIPv6 => .ok (.userDefinedT (.globalId "inet"))
    | .pyStrMaxLength n =>
      match opts.substitutions .pyStr with
      | some s => applyMaxLength s n
      | none => applyMaxLength (.varCharT none) n
    | _ => .error (.typeError "not a simple type")

/-- `DataclassConverter._enumeration_key_type`: the key type for storing
enumeration values in a dedicated table (`simple_type_to_sql_data_type`
applied to `int32`). -/
def enumeration_key_type (opts : ConverterOptions) : Except ConvError SqlDataType :=
  simple_nonenum_to_sql opts .pyInt32

/-- `DataclassConverter.simple_type_to_sql_data_type`.  For an enumeration
type the value type is resolved first (and may raise), then the enum mode
is dispatched. -/
def simple_type_to_sql_data_type (opts : ConverterOptions) (typ : PyType) :
    Except ConvError SqlDataType :=
  match typ with
  | .pyEnum e =>
    match opts.substitutions typ with
    | some s => .ok s
    | none => do
      let value_type ← enum_value_type e
      match opts.enum_mode with
      | .TYPE => .ok (.userDefinedT (create_qualified_id opts e.module e.name))
      | .INLINE => .ok (.enumT (e.values.map PyValue.pyStr))
      | .RELATION => enumeration_key_type opts
      | .CHECK => simple_nonenum_to_sql opts value_type
  | _ => simple_nonenum_to_sql opts typ

/-- `DataclassConverter._is_relationship`: a list whose element type is an
entity, or (in `RELATION` enum mode) an enumeration type. -/
def is_relationship (opts : ConverterOptions) : PyType → Bool
  | .pyList elem =>
    (opts.enum_mode == .RELATION && is_type_enum elem) || is_entity_type elem
  | _ => false

/-- Modelled from the spec: the compatibility combinator `compatible_type`
of the missing `model/data_types.py`: a common descriptor able to represent
every input (identical descriptors collapse; integer widths widen to the
largest; character limits widen to the most permissive); incompatible
inputs fail. -/
def compatible_type (ts : List SqlDataType) : Except ConvError SqlDataType :=
  match ts.dedup with
  | [] => .error (.typeError "compatibility error")
  | [t] => .ok t
  | l =>
    if l.all (fun t => match t with | .integerT _ => true | _ => false) then
      .ok (.integerT (l.foldl
        (fun acc t => match t with | .integerT w => max acc w | _ => acc) 0))
    else if l.all (fun t => match t with | .varCharT _ => true | _ => false) then
      if l.any (fun t => t == .varCharT none) then .ok (.varCharT none)
      else .ok (.varCharT (some (l.foldl
        (fun acc t => match t with | .varCharT (some w) => max acc w | _ => acc) 0)))
    else .error (.typeError "compatibility error")

/-- One step of `DataclassConverter.member_to_sql_data_type`; the argument
`rec` stands for the recursive occurrences (an entity's primary-key type,
a discriminated union's common key type, and plain union members).  The
source's `Literal` and `ForwardRef` branches have no counterpart because
the embedded type fragment cannot express those types.  The source's
recursive calls `member_to_sql_data_type(JsonType, cls)` are rendered as
`simple_nonenum_to_sql opts .pyJson`, which is exactly what they evaluate
to (a substitution lookup followed by the JSON primitive rule). -/
def memberBody (opts : ConverterOptions)
    (rec : PyType → Except ConvError SqlDataType) (typ : PyType) :
    Except ConvError SqlDataType :=
  match opts.substitutions typ with
  | some s => .ok s
  | none =>
    match typ with
    | .pyDataclass _ _ _ =>
      match pkTypeOf typ with
      | some kt => rec kt
      | none =>
        match opts.struct_mode with
        | .TYPE => .ok (.userDefinedT
            (create_qualified_id opts (moduleOf typ) (typeIdName typ)))
        | .JSON => simple_nonenum_to_sql opts .pyJson
    | .pyList item =>
      if is_simple_type item then
        match opts.array_mode with
        | .ARRAY =>
          if opts.enum_mode == .RELATION && is_type_enum item then
            .error (.typeError
              "use a join table; cannot convert list of enumeration type to SQL array")
          else do
            let it ← simple_type_to_sql_data_type opts item
            .ok (.arrayT it)
        | .JSON => simple_nonenum_to_sql opts .pyJson
      else if is_entity_type item then
        .error (.typeError
          "use a join table; cannot convert list of entity type to SQL array")
      else
        match item with
        | .pyDataclass md nm _ =>
          match opts.array_mode with
          | .ARRAY => .ok (.arrayT (.userDefinedT (create_qualified_id opts md nm)))
          | .JSON => simple_nonenum_to_sql opts .pyJson
        | .pyOpaque md nm =>
          match opts.array_mode with
          | .ARRAY => .ok (.arrayT (.userDefinedT (create_qualified_id opts md nm)))
          | .JSON => simple_nonenum_to_sql opts .pyJson
        | _ => .error (.typeError "unsupported array data type")
    | .pyUnion ms =>
      if is_extensible_enum_type typ then
        enumeration_key_type opts
      else
        let members := ms.toList
        if members.all is_entity_type then
          let primary_key_types := (members.filterMap pkTypeOf).dedup
          if primary_key_types.length > 1 then
            .error (.typeError "mismatching key types in discriminated union")
          else
            match primary_key_types with
            | [common_key_type] => rec common_key_type
            | _ => .error .keyError
        else do
          let sql_member_types ← mapE rec members
          match compatible_type sql_member_types with
          | .ok r => .ok r
          | .error _ => .error (.typeError "inconsistent union data types")
    | .pyOpaque md nm => .ok (.userDefinedT (create_qualified_id opts md nm))
    | _ => simple_type_to_sql_data_type opts typ

/-- Fuel-indexed recursion for the member-type mapper. -/
def memberGo (opts : ConverterOptions) : Nat → PyType → Except ConvError SqlDataType
  | 0, _ => .error .fuelExhausted
  | n + 1, typ => memberBody opts (memberGo opts n) typ

/-- `DataclassConverter.member_to_sql_data_type`.  The fuel `typ.depth`
dominates the recursion depth (every recursive call is on a strictly
shallower type), so the `fuelExhausted` branch is unreachable; this is made
precise by `memberGo_congr`. -/
def member_to_sql_data_type (opts : ConverterOptions) (typ : PyType) :
    Except ConvError SqlDataType :=
  memberGo opts typ.depth typ

theorem union_member_depth_lt {ms : PyTypes} {m : PyType}
    (h : m ∈ ms.toList) : m.depth < (PyType.pyUnion ms).depth := by
  have := PyTypes.depthL_le_of_mem h
  simp only [PyType.depth]
  omega

theorem disc_key_depth_lt {ms : PyTypes} {kt : PyType}
    (h : kt ∈ ((ms.toList.filterMap pkTypeOf).dedup)) :
    kt.depth < (PyType.pyUnion ms).depth := by
  have hmem := List.mem_dedup.mp h
  obtain ⟨m, hm, hpk⟩ := List.mem_filterMap.mp hmem
  have h1 := pkType_depth_lt hpk
  have h2 := PyTypes.depthL_le_of_mem hm
  simp only [PyType.depth]
  omega

theorem memberBody_congr (opts : ConverterOptions)
    {r1 r2 : PyType → Except ConvError SqlDataType} (typ : PyType)
    (h : ∀ t, t.depth < typ.depth → r1 t = r2 t) :
    memberBody opts r1 typ = memberBody opts r2 typ := by
  cases typ
  case pyDataclass md nm fs =>
    simp only [memberBody]
    cases hsub : opts.substitutions (.pyDataclass md nm fs) with
    | some s => rfl
    | none =>
      cases hpk : pkTypeOf (.pyDataclass md nm fs) with
      | some kt => exact h kt (pkType_depth_lt hpk)
      | none => rfl
  case pyUnion ms =>
    simp only [memberBody]
    cases hsub : opts.substitutions (.pyUnion ms) with
    | some s => rfl
    | none =>
      by_cases hx : is_extensible_enum_type (.pyUnion ms)
      · simp only [hx, if_true]
      · simp only [hx, if_false]
        by_cases hall : ms.toList.all is_entity_type
        · simp only [hall, if_true]
          by_cases hlen : ((ms.toList.filterMap pkTypeOf).dedup).length > 1
          · simp only [hlen, if_true]
          · simp only [hlen, if_false]
            cases hd : (ms.toList.filterMap pkTypeOf).dedup with
            | nil => rfl
            | cons kt rest =>
              cases rest with
              | nil =>
                exact h kt (disc_key_depth_lt (by rw [hd]; exact List.mem_cons_self _ _))
              | cons kt2 rest2 => rfl
        · simp only [hall, if_false]
          have hmap : mapE r1 ms.toList = mapE r2 ms.toList :=
            mapE_congr (fun m hm => h m (union_member_depth_lt hm))
          simp [hmap]
  all_goals rfl

theorem memberGo_congr (opts : ConverterOptions) :
    ∀ (k : Nat) (t : PyType) (m n : Nat), t.depth ≤ k → t.depth ≤ m → t.depth ≤ n →
      memberGo opts m t = memberGo opts n t := by
  intro k
  induction k with
  | zero =>
    intro t m n hk _ _
    have := PyType.depth_pos t
    omega
  | succ k ih =>
    intro t m n hk hm hn
    have hp := PyType.depth_pos t
    obtain ⟨m', rfl⟩ : ∃ m', m = m' + 1 := ⟨m - 1, by omega⟩
    obtain ⟨n', rfl⟩ : ∃ n', n = n' + 1 := ⟨n - 1, by omega⟩
    simp only [memberGo]
    exact memberBody_congr opts t
      (fun t' ht' => ih t' m' n' (by omega) (by omega) (by omega))

/-- Adequately-fueled runs of the member mapper agree with the mapper. -/
theorem memberGo_eq_member (opts : ConverterOptions) {t : PyType} {n : Nat}
    (h : t.depth ≤ n) : memberGo opts n t = member_to_sql_data_type opts t :=
  memberGo_congr opts (max n t.depth) t n t.depth (le_max_right _ _) h (le_refl _)

/-- Unfolding lemma: one step of the member mapper, with the recursive
occurrences re-expressed through the mapper itself. -/
theorem member_to_sql_eq_body (opts : ConverterOptions) (typ : PyType) :
    member_to_sql_data_type opts typ
      = memberBody opts (fun t => memberGo opts (typ.depth - 1) t) typ := by
  have hp := PyType.depth_pos typ
  obtain ⟨d, hd⟩ : ∃ d, typ.depth = d + 1 := ⟨typ.depth - 1, by omega⟩
  simp only [member_to_sql_data_type, hd, memberGo, Nat.add_sub_cancel]

/-! ## Entity-to-table compiler -/

/-- `DataclassConverter.member_to_column`: column name, mapped data type,
nullability, default expression (omitted when the declared default is
`MISSING` or Python `None`), identity flag, and the per-field
documentation. -/
def member_to_column (opts : ConverterOptions) (f : FieldSig × PyType) :
    Except ConvError Column := do
  let dt ← member_to_sql_data_type opts f.2
  pure { name := f.1.fname
         dataType := dt
         nullable := f.1.props.nullable
         defaultVal :=
           match f.1.defaultVal with
           | some v => if v = .vNone then none else some (constant v)
           | none => none
         identity := f.1.props.is_identity
         description := f.1.doc }

/-- Modelled from the spec: the quoted rendering of a local identifier
(`LocalId.__str__` of the missing `model/id_types.py`), used inside CHECK
constraint predicates. -/
def renderLocalId (n : String) : String := "\"" ++ n ++ "\""

/-- The mandatory foreign keys for extensible-enumeration fields
(`dataclass_to_table`, loop over `dataclass_extensible_enum_fields`). -/
def extensible_fk_constraints (opts : ConverterOptions) (table_name : String)
    (efs : List (String × EnumDef)) : List Constraint :=
  efs.map (fun fe =>
    .foreign ("fk_" ++ table_name ++ "_" ++ fe.1) [fe.1]
      ⟨create_qualified_id opts fe.2.module fe.2.name, ["id"]⟩)

/-- The mandatory foreign keys for plain enumeration fields in `RELATION`
enum mode (`dataclass_to_table`, loop over `dataclass_enum_fields`). -/
def relation_fk_constraints (opts : ConverterOptions) (table_name : String)
    (cls : PyType) : List Constraint :=
  (dataclass_enum_fields cls).map (fun fe =>
    .foreign ("fk_" ++ table_name ++ "_" ++ fe.1) [fe.1]
      ⟨create_qualified_id opts fe.2.module fe.2.name, ["id"]⟩)

/-- The CHECK constraints for plain enumeration fields in `CHECK` enum mode. -/
def check_enum_constraints (table_name : String) (cls : PyType) : List Constraint :=
  (dataclass_enum_fields cls).map (fun fe =>
    .check ("ch_" ++ table_name ++ "_" ++ fe.1)
      (renderLocalId fe.1 ++ " IN ("
        ++ String.intercalate ", " (fe.2.values.map constant) ++ ")"))

/-- `DataclassConverter.dataclass_to_constraints`: one `Unique` constraint
per unique-flagged field, and — only when foreign-key generation is
enabled — one `ForeignKey` per entity-typed field and one
`DiscriminatedConstraint` per all-entity union field.  (The `.getD ""`
fallbacks are unreachable: they are guarded by `is_entity_type`, which
guarantees a primary key.) -/
def dataclass_to_constraints (opts : ConverterOptions) (cls : PyType) :
    List Constraint :=
  let table_name := create_qualified_prefix_id opts cls
  let fs := fieldsOf cls
  let uniques := (fs.filter (fun f => f.1.props.is_unique)).map (fun f =>
    Constraint.unique ("uq_" ++ table_name ++ "_" ++ f.1.fname) [f.1.fname])
  let fks :=
    if opts.foreign_constraints then
      fs.flatMap (fun f =>
        (match f.2 with
         | .pyDataclass md nm _ =>
           if is_entity_type f.2 then
             [Constraint.foreign ("fk_" ++ table_name ++ "_" ++ f.1.fname) [f.1.fname]
               ⟨create_qualified_id opts md nm, [(pkNameOf f.2).getD ""]⟩]
           else []
         | _ => []) ++
        (match f.2 with
         | .pyUnion ms =>
           if ms.toList.all is_entity_type then
             [Constraint.discriminated ("dk_" ++ table_name ++ "_" ++ f.1.fname)
               [f.1.fname]
               (ms.toList.map (fun t =>
                 ⟨create_qualified_id opts (moduleOf t) (typeIdName t),
                  [(pkNameOf t).getD ""]⟩))]
           else []
         | _ => []))
    else []
  uniques ++ fks

/-- `DataclassConverter.dataclass_to_table`.  Columns are built for every
non-relationship field (column errors are wrapped with the class name);
the optional constraint set from `dataclass_to_constraints` is appended
only when foreign-key generation is enabled; the extensible-enum foreign
keys, the `RELATION`-mode enum foreign keys and the `CHECK`-mode check
constraints follow unconditionally; an empty constraint list is passed as
Python `None`.  The class docstring is not modelled (`description` is
`none`). -/
def dataclass_to_table (opts : ConverterOptions) (cls : PyType) :
    Except ConvError Table :=
  match cls with
  | .pyDataclass md nm fs => do
    let fields := fs.toList
    let columns ← (mapE (member_to_column opts)
        (fields.filter (fun f => !(is_relationship opts f.2)))).mapError
        (ConvError.wrapped nm)
    let table_name := create_qualified_prefix_id opts cls
    let base := if opts.foreign_constraints then dataclass_to_constraints opts cls else []
    let efs ← dataclass_extensible_enum_fields cls
    let ext := extensible_fk_constraints opts table_name efs
    let rel := if opts.enum_mode = .RELATION then
        relation_fk_constraints opts table_name cls else []
    let chk := if opts.enum_mode = .CHECK then
        check_enum_constraints table_name cls else []
    let constraints := base ++ ext ++ rel ++ chk
    match pkNameOf cls with
    | some pk =>
      pure { name := create_qualified_id opts md nm
             columns := columns
             primaryKey := [pk]
             constraints := if constraints.isEmpty then none else some constraints
             description := none }
    | none => .error (.typeError "missing primary key")
  | _ => .error (.typeError "expected a dataclass type")

/-- `DataclassConverter.member_to_field`: a struct member. -/
def member_to_field (opts : ConverterOptions) (f : FieldSig × PyType) :
    Except ConvError StructMember := do
  let dt ← member_to_sql_data_type opts f.2
  pure { name := f.1.fname, dataType := dt, description := f.1.doc }

/-- `DataclassConverter.dataclass_to_struct`. -/
def dataclass_to_struct (opts : ConverterOptions) (cls : PyType) :
    Except ConvError StructType :=
  match cls with
  | .pyDataclass md nm fs => do
    let members ← (mapE (member_to_field opts) fs.toList).mapError
        (ConvError.wrapped nm)
    pure { name := create_qualified_id opts md nm
           members := members
           description := none }
  | _ => .error (.typeError "expected a dataclass type")

/-- `DataclassConverter._enum_table`: the synthesized lookup table for an
enumeration materialized as a relation: columns `id` (identity,
non-nullable, of the enumeration key type) and `value` (non-nullable,
`member_to_sql_data_type` of `ENUM_LABEL_TYPE`), primary key `id`, and a
single `Unique` constraint on `value`. -/
def enum_table (opts : ConverterOptions) (e : EnumDef) : Except ConvError Table := do
  let keyT ← enumeration_key_type opts
  let valT ← member_to_sql_data_type opts ENUM_LABEL_TYPE
  pure { name := create_qualified_id opts e.module e.name
         columns := [
           { name := "id", dataType := keyT, nullable := false,
             defaultVal := none, identity := true, description := none },
           { name := "value", dataType := valT, nullable := false,
             defaultVal := none, identity := false, description := none } ]
         primaryKey := ["id"]
         constraints := some [Constraint.unique ("uq_" ++ e.name) ["value"]]
         description := none }

/-- The loop body of the join-table synthesis in `dataclasses_to_catalog`
for one relationship field of one entity.  (Errors that Python would raise
in a different sequence within the same loop body are raised here in a
fixed order; only inputs failing in several ways at once can tell the
difference.) -/
def join_table (opts : ConverterOptions) (ent : PyType) (f : FieldSig × PyType) :
    Except ConvError Table :=
  match f.2 with
  | .pyList item => do
    let primary_left_name ←
      match pkNameOf ent with
      | some n => pure n
      | none => Except.error (.typeError "missing primary key")
    let right ←
      if is_entity_type item then
        match pkNameOf item, pkTypeOf item with
        | some rn, some rt => do
          let rT ← member_to_sql_data_type opts rt
          pure (rn, rT)
        | _, _ => Except.error (.typeError "missing primary key")
      else if is_type_enum item then do
        let kT ← enumeration_key_type opts
        pure ("id", kT)
      else Except.error (.typeError "unrecognized join relation type")
    let join_left_name := create_qualified_prefix_id opts ent ++ "_" ++ f.1.fname
    let join_right_name := create_qualified_prefix_id opts item ++ "_" ++ right.1
    let uuT ← member_to_sql_data_type opts .pyUuid
    let leftT ←
      match pkTypeOf ent with
      | some t => member_to_sql_data_type opts t
      | none => Except.error (.typeError "missing primary key")
    pure { name := create_qualified_id opts (moduleOf ent)
             (join_left_name ++ "_" ++ typeIdName item)
           columns := [
             { name := "uuid", dataType := uuT, nullable := false,
               defaultVal := none, identity := false, description := none },
             { name := join_left_name, dataType := leftT, nullable := false,
               defaultVal := none, identity := false, description := none },
             { name := join_right_name, dataType := right.2, nullable := false,
               defaultVal := none, identity := false, description := none } ]
           primaryKey := ["uuid"]
           constraints := some [
             Constraint.foreign ("jk_" ++ join_left_name) [join_left_name]
               ⟨create_qualified_id opts (moduleOf ent) (typeIdName ent),
                [primary_left_name]⟩,
             Constraint.foreign ("jk_" ++ join_right_name) [join_right_name]
               ⟨create_qualified_id opts (moduleOf item) (typeIdName item),
                [right.1]⟩ ]
           description := none }
  | _ => .error (.typeError "unrecognized join relation type")

/-! ## Catalog assembler -/

/-- Modelled from the spec: the named types (dataclasses and enumerations)
referenced transitively from a type expression (`get_referenced_types` of
the external introspection library); fuel-indexed over the embedded tree,
`PyType.depth` fuel suffices. -/
def namedNodes : Nat → PyType → List PyType
  | 0, _ => []
  | n + 1, t =>
    match t with
    | .pyDataclass _ _ fs =>
      t :: (fs.toList.map (fun f => f.2)).flatMap (namedNodes n)
    | .pyEnum _ => [t]
    | .pyList e => namedNodes n e
    | .pyUnion ms => ms.toList.flatMap (namedNodes n)
    | _ => []

def typeRefs (t : PyType) : List PyType := namedNodes t.depth t

/-- The referenced-type closure of `dataclasses_to_catalog`: the input
entity types plus every transitively referenced named type (the Python
`set` is modelled as a deduplicated list; iteration order of the set is
immaterial because every later use sorts by name). -/
def collectReferenced (entity_types : List PyType) : List PyType :=
  (entity_types ++ entity_types.flatMap typeRefs).dedup

/-- Does `x` reference `y` (for the struct topological order)? -/
def refsWithin (x y : PyType) : Bool := (y != x) && (typeRefs x).contains y

/-- Modelled from the spec: `_topological_sort` — repeatedly emit the types
that reference no other remaining type, so that a type referenced by
another precedes it.  Fuel-indexed by the list length. -/
def topoRounds : Nat → List PyType → List PyType
  | 0, l => l
  | n + 1, l =>
    let ready := l.filter (fun x => !(l.any (fun y => refsWithin x y)))
    match ready with
    | [] => l
    | _ => ready ++ topoRounds n (l.filter (fun x => l.any (fun y => refsWithin x y)))

def topological_sort (l : List PyType) : List PyType := topoRounds l.length l

/-- The `TYPE`-enum-mode collection step of `dataclasses_to_catalog`:
enum types sorted by name; enumerations with fewer than two values are
skipped (the source comments that they expand into extensible enumeration
tables); the rest become native enum type definitions grouped by module
(`QualifiedId` is used directly here, independent of the qualified-names
option, as in the source). -/
def enum_defs_by_module (opts : ConverterOptions) (refs : List PyType) :
    List (String × List EnumTypeDef) :=
  let enum_types := sortByKey typeIdName (refs.filter is_type_enum)
  enum_types.foldl (fun acc t =>
    match t with
    | .pyEnum e =>
      let enum_values := e.values.map PyValue.pyStr
      if enum_values.length < 2 then acc
      else dictAppend acc e.module
        ⟨.qualifiedId (opts.namespaces e.module) e.name, enum_values⟩
    | _ => acc) []

/-- The `TYPE`-struct-mode collection step: struct types sorted by name,
topologically ordered, compiled and grouped by module. -/
def struct_defs_by_module (opts : ConverterOptions) (refs : List PyType) :
    Except ConvError (List (String × List StructType)) := do
  let struct_types := topological_sort (sortByKey typeIdName (refs.filter is_struct_type))
  let pairs ← mapE (fun t => do
      let st ← dataclass_to_struct opts t
      pure (moduleOf t, st)) struct_types
  pure (pairs.foldl (fun acc p => dictAppend acc p.1 p.2) [])

/-- The relationship fields of an entity (excluded from its table, turned
into join tables). -/
def relationship_fields (opts : ConverterOptions) (cls : PyType) :
    List (FieldSig × PyType) :=
  (fieldsOf cls).filter (fun f => is_relationship opts f.2)

/-- The join tables of all relationship fields of all entities, paired with
the owning entity's module, in source loop order. -/
def join_pairs (opts : ConverterOptions) (table_types : List PyType) :
    Except ConvError (List (String × Table)) := do
  let ll ← mapE (fun ent =>
      mapE (fun f => do
          let jt ← join_table opts ent f
          pure (moduleOf ent, jt))
        (relationship_fields opts ent))
    table_types
  pure ll.flatten

/-- The entity types compiled to tables: the name-sorted entity types of
the referenced-type closure. -/
def table_types_of (entity_types : List PyType) : List PyType :=
  sortByKey typeIdName ((collectReferenced entity_types).filter is_entity_type)

/-- The namespace-grouping step of `dataclasses_to_catalog`: with qualified
names, one namespace per module key of the tables dictionary (a module that
contributes only enums or structs but no table is dropped, as in the
source); otherwise a single unnamed namespace concatenating everything. -/
def buildCatalog (opts : ConverterOptions)
    (enums : List (String × List EnumTypeDef))
    (structs : List (String × List StructType))
    (tables : List (String × List Table)) : Catalog :=
  if opts.qualified_names then
    ⟨tables.map (fun md =>
      { name := (opts.namespaces md.1).getD ""
        enums := lookupD enums md.1
        structs := lookupD structs md.1
        tables := md.2 })⟩
  else
    ⟨[{ name := ""
        enums := dictValues enums
        structs := dictValues structs
        tables := dictValues tables }]⟩

/-- The struct-definitions step gated on the struct mode (empty unless
`TYPE`). -/
def struct_defs_or_empty (opts : ConverterOptions) (refs : List PyType) :
    Except ConvError (List (String × List StructType)) :=
  if opts.struct_mode = .TYPE then struct_defs_by_module opts refs else pure []

/-- `DataclassConverter.dataclasses_to_catalog`: the top-level driver.
Regular (`RELATION`-mode) and extensible enumeration types are collected in
two separate sets, each sorted by name, and a lookup table is appended for
every element of each set — there is no merging between the two. -/
def dataclasses_to_catalog (opts : ConverterOptions) (entity_types : List PyType) :
    Except ConvError Catalog := do
  let referenced_types := collectReferenced entity_types
  let enums := if opts.enum_mode = .TYPE then
      enum_defs_by_module opts referenced_types else []
  let structs ← struct_defs_or_empty opts referenced_types
  let table_types := sortByKey typeIdName (referenced_types.filter is_entity_type)
  let tablePairs ← mapE (fun t => do
      let tb ← dataclass_to_table opts t
      pure (moduleOf t, tb)) table_types
  let regular_enum_types :=
    if opts.enum_mode = .RELATION then
      sortByKey EnumDef.name
        ((table_types.flatMap (fun ent =>
          (dataclass_enum_fields ent).map (fun p => p.2))).dedup)
    else []
  let regularPairs ← mapE (fun e => do
      let tb ← enum_table opts e
      pure (e.module, tb)) regular_enum_types
  let extLists ← mapE dataclass_extensible_enum_fields table_types
  let extensible_enum_types :=
    sortByKey EnumDef.name ((extLists.flatten.map (fun p => p.2)).dedup)
  let extPairs ← mapE (fun e => do
      let tb ← enum_table opts e
      pure (e.module, tb)) extensible_enum_types
  let jPairs ← join_pairs opts table_types
  let tables := addPairs (addPairs (addPairs (addPairs [] tablePairs)
      regularPairs) extPairs) jPairs
  pure (buildCatalog opts enums structs tables)

/-! ## Catalog observers -/

/-- All tables of a catalog, across namespaces, in order. -/
def allCatalogTables (c : Catalog) : List Table :=
  (c.namespaces.map Namespace.tables).flatten

/-- All native-enum type definitions of a catalog. -/
def allCatalogEnums (c : Catalog) : List EnumTypeDef :=
  (c.namespaces.map Namespace.enums).flatten

/-- The number of tables of a catalog whose object name is `n`. -/
def countTablesNamed (c : Catalog) (n : String) : Nat :=
  (allCatalogTables c).countP (fun t => t.name.objName == n)

theorem allCatalogTables_buildCatalog (opts : ConverterOptions)
    (enums : List (String × List EnumTypeDef))
    (structs : List (String × List StructType))
    (tables : List (String × List Table)) :
    allCatalogTables (buildCatalog opts enums structs tables) = dictValues tables := by
  by_cases hq : opts.qualified_names
  · simp only [buildCatalog, if_pos hq, allCatalogTables, List.map_map]
    induction tables with
    | nil => simp [dictValues]
    | cons p rest ih => simpa [dictValues] using ih
  · simp only [buildCatalog, if_neg hq, allCatalogTables]
    simp [dictValues]

/-! ## Shared helper lemmas for the claim proofs -/

theorem one_lt_length_of_two_mem {l : List α} {a b : α} (ha : a ∈ l) (hb : b ∈ l)
    (hne : a ≠ b) : 1 < l.length := by
  cases l with
  | nil => simp at ha
  | cons x xs =>
    cases xs with
    | nil =>
      simp only [List.mem_singleton] at ha hb
      subst ha; subst hb
      exact absurd rfl hne
    | cons y ys => simp [List.length_cons]

theorem entity_pk_some {t : PyType} (h : is_entity_type t = true) :
    ∃ n kt, pkNameOf t = some n ∧ pkTypeOf t = some kt := by
  cases t <;> simp only [is_entity_type] at h
  case pyDataclass md nm fs =>
    obtain ⟨f, hf⟩ := Option.isSome_iff_exists.mp h
    exact ⟨f.1.fname, f.2, by simp [pkNameOf, fieldsOf, hf], by simp [pkTypeOf, fieldsOf, hf]⟩
  all_goals exact absurd h (by simp)

theorem entity_is_dataclass {t : PyType} (h : is_entity_type t = true) :
    ∃ md nm fs, t = .pyDataclass md nm fs := by
  cases t <;> simp only [is_entity_type] at h
  case pyDataclass md nm fs => exact ⟨md, nm, fs, rfl⟩
  all_goals exact absurd h (by simp)

/-! ## Concrete inputs used by the claim theorems and witnesses -/

/-- The default converter options (enum mode `TYPE`, struct mode `TYPE`,
array mode `ARRAY`, qualified names, foreign constraints on, no
substitutions). -/
def defaultOptions : ConverterOptions := {}

def relationOptions : ConverterOptions := { enum_mode := .RELATION }

def inlineOptions : ConverterOptions := { enum_mode := .INLINE }

def noFkOptions : ConverterOptions := { foreign_constraints := false }

def jsonArrayOptions : ConverterOptions := { array_mode := .JSON }

/-- A primary-key field signature named `id`. -/
def pkFieldSig : FieldSig := ⟨"id", ⟨false, false, false, true⟩, none, none⟩

/-- A plain required field signature. -/
def reqFieldSig (n : String) : FieldSig := ⟨n, ⟨false, false, false, false⟩, none, none⟩

/-- A two-value string enumeration `Color` in module `m`. -/
def colorEnum : EnumDef := ⟨"Color", "m", [.vStr "red", .vStr "green"]⟩

/-- Fields of an entity using `Color` both as a plain enum field (`state`)
and inside an extensible-enum field (`label`, of type `Color`-or-`str`). -/
def dualRoleFields : PyFields :=
  .cons pkFieldSig .pyInt
    (.cons (reqFieldSig "state") (.pyEnum colorEnum)
      (.cons (reqFieldSig "label")
        (.pyUnion (.cons (.pyEnum colorEnum) (.cons .pyStr .nil))) .nil))

/-- An entity using `Color` both as a plain enum field (`state`) and inside
an extensible-enum field (`label : Color | str`). -/
def dualRoleEntity : PyType := .pyDataclass "m" "Rec" dualRoleFields

/-- Two entities each with a plain `Color` field (enum sharing scenario). -/
def sharerEntity1 : PyType :=
  .pyDataclass "m" "Use1"
    (.cons pkFieldSig .pyInt (.cons (reqFieldSig "state") (.pyEnum colorEnum) .nil))

def sharerEntity2 : PyType :=
  .pyDataclass "m" "Use2"
    (.cons pkFieldSig .pyInt (.cons (reqFieldSig "state") (.pyEnum colorEnum) .nil))

/-- A single-value string enumeration. -/
def statusEnum : EnumDef := ⟨"Status", "m", [.vStr "active"]⟩

/-- An entity with a single-value enum field. -/
def statusEntity : PyType :=
  .pyDataclass "m" "Ent"
    (.cons pkFieldSig .pyInt (.cons (reqFieldSig "st") (.pyEnum statusEnum) .nil))

/-- An entity with a unique-flagged field and no enum fields. -/
def uniqueFieldEntity : PyType :=
  .pyDataclass "m" "Doc"
    (.cons pkFieldSig .pyInt
      (.cons ⟨"slug", ⟨false, false, true, false⟩, none, none⟩ .pyStr .nil))

/-- An identity field with a declared (non-`None`) default value. -/
def identityDefaultField : FieldSig × PyType :=
  (⟨"serial", ⟨false, true, false, true⟩, some (.vStr "abc"), none⟩, .pyInt)

/-- Entity `B {id : int}`. -/
def entityB : PyType := .pyDataclass "m" "B" (.cons pkFieldSig .pyInt .nil)

/-- Entity `A {id : int, items : list[B]}`. -/
def entityA : PyType :=
  .pyDataclass "m" "A"
    (.cons pkFieldSig .pyInt (.cons (reqFieldSig "items") (.pyList entityB) .nil))

/-- An enumeration mixing an integer and a string member value. -/
def mixedEnum : EnumDef := ⟨"Mixed", "m", [.vInt 1, .vStr "x"]⟩

/-- Entities with 2-byte and 4-byte integer primary keys, and a shared-key
pair, for the discriminated-union claims. -/
def entityP16 : PyType := .pyDataclass "m" "P16" (.cons pkFieldSig .pyInt16 .nil)
def entityP32 : PyType := .pyDataclass "m" "P32" (.cons pkFieldSig .pyInt32 .nil)
def entityQ1 : PyType := .pyDataclass "m" "Q1" (.cons pkFieldSig .pyInt .nil)
def entityQ2 : PyType := .pyDataclass "m" "Q2" (.cons pkFieldSig .pyInt .nil)

def unionSameKeys : PyTypes := .cons entityQ1 (.cons entityQ2 .nil)
def unionDiffKeys : PyTypes := .cons entityP16 (.cons entityP32 .nil)

/-! ## Claim theorems -/

/-- **C1**: the claim says each distinct enum type needing a lookup table is
materialized exactly once — in particular an enum used both as a plain enum
field (under `RELATION` mode) and as an extensible-enum field must still
yield a single lookup table.  The first conjunct confirms the sharing half
(two entities referencing the same enum yield one lookup table); the second
evaluates the code at the failing input: `dualRoleEntity` uses `Color` in
both roles and the catalog contains **two** lookup tables named `Color`
(one appended by the regular-enumerations loop, one by the
extensible-enumerations loop; the two sets are never merged), contradicting
the claim and the code's own single-materialization comment. -/
theorem c1_enum_lookup_materialization :
    (dataclasses_to_catalog relationOptions [sharerEntity1, sharerEntity2]).map
      (fun c => countTablesNamed c "Color") = .ok 1
    ∧ (dataclasses_to_catalog relationOptions [dualRoleEntity]).map
      (fun c => countTablesNamed c "Color") = .ok 2 := by
  exact ⟨rfl, rfl⟩

/-- **C2** (counterexample): the claim says disabling foreign-constraint
generation suppresses *only* the entity-reference and discriminated-union
constraints.  False: `dataclass_to_table` skips the whole
`dataclass_to_constraints` call when the option is off, so the per-field
`Unique` constraints are suppressed as well — on `uniqueFieldEntity`
(a unique-flagged `slug` field, no enum fields) the table has the unique
constraint with the option on and **no** constraints at all with the
option off. -/
theorem c2_unique_constraints_also_suppressed :
    (dataclass_to_table defaultOptions uniqueFieldEntity).map Table.constraints
      = .ok (some [.unique "uq_Doc_slug" ["slug"]])
    ∧ (dataclass_to_table noFkOptions uniqueFieldEntity).map Table.constraints
      = .ok none := by
  exact ⟨rfl, rfl⟩

/-- **C4**: the claim says an enum with fewer than two distinct values is
never represented as a native enum type or an inline enum descriptor and is
handled as an extensible enumeration instead.  The code only implements the
skip in the `TYPE`-mode catalog collection (whose comment claims such enums
"expand into extensible enumeration tables"): the column mapping still
produces an inline enum descriptor under `INLINE` mode (first conjunct) and
a native-type reference under `TYPE` mode (third conjunct), while the
catalog defines neither a native enum type nor any lookup table for it
(second conjunct) — the promised extensible expansion never happens. -/
theorem c4_small_enum_still_native_or_inline :
    simple_type_to_sql_data_type inlineOptions (.pyEnum statusEnum)
      = .ok (.enumT ["active"])
    ∧ (dataclasses_to_catalog defaultOptions [statusEntity]).map
        (fun c => ((allCatalogEnums c).length, countTablesNamed c "Status"))
      = .ok (0, 0)
    ∧ simple_type_to_sql_data_type defaultOptions (.pyEnum statusEnum)
      = .ok (.userDefinedT (.qualifiedId none "Status")) := by
  exact ⟨rfl, rfl, rfl⟩

/-- **C8** (counterexample): the claim says the default expression is
omitted exactly when the field has no declared default or the field is an
identity column.  False on both sides: an identity field with declared
default `"abc"` keeps its default expression in the compiled column. -/
theorem c8_identity_default_not_omitted :
    identityDefaultField.1.props.is_identity = true
    ∧ (member_to_column defaultOptions identityDefaultField).map Column.defaultVal
        = .ok (some (constant (.vStr "abc"))) := by
  exact ⟨rfl, rfl⟩

/-- **C8** (amended): the compiled column's default expression equals the
rendered declared default whenever one is declared and is not Python
`None`; it is omitted exactly when the field has no declared default or the
declared default is `None`; the identity flag is carried over but does not
suppress a declared default. -/
theorem c8_column_default_characterization (opts : ConverterOptions)
    (f : FieldSig × PyType) (col : Column)
    (h : member_to_column opts f = .ok col) :
    (col.defaultVal = none ↔ (f.1.defaultVal = none ∨ f.1.defaultVal = some .vNone))
    ∧ (∀ v, f.1.defaultVal = some v → v ≠ .vNone → col.defaultVal = some (constant v))
    ∧ col.identity = f.1.props.is_identity := by
  simp only [member_to_column] at h
  rw [exbind_ok] at h
  obtain ⟨dt, hdt, h⟩ := h
  simp only [pure, Except.pure, Except.ok.injEq] at h
  subst h
  refine ⟨?_, ?_, rfl⟩
  · cases hd : f.1.defaultVal with
    | none => simp
    | some v =>
      by_cases hv : v = PyValue.vNone
      · subst hv; simp
      · simp [hv]
  · intro v hv hne
    simp [hv, hne]

/-- **C9** (counterexample): the claim says narrow unsigned integers widen
to the next signed width able to represent every value (uint16 → 4-byte,
uint32 → 8-byte).  False: without extra numeric types the code (and the
repository's own generator tests, which expect `smallint` and `integer`)
maps uint16 to a 2-byte and uint32 to a 4-byte signed integer. -/
theorem c9_uint16_not_widened :
    simple_type_to_sql_data_type defaultOptions .pyUInt16 = .ok (.integerT 2)
    ∧ simple_type_to_sql_data_type defaultOptions .pyUInt32 = .ok (.integerT 4)
    ∧ SqlDataType.integerT 2 ≠ .integerT 4
    ∧ SqlDataType.integerT 4 ≠ .integerT 8 := by
  exact ⟨rfl, rfl, by decide, by decide⟩

/-- **C9** (amended): with the extra-numeric-types option disabled (and no
substitutions for these types), the unsigned mapping is uint8 → 2-byte
signed (the next wider width), uint16 → 2-byte signed, uint32 → 4-byte
signed (the same width, which cannot represent all values of the unsigned
type). -/
theorem c9_unsigned_integer_mapping (opts : ConverterOptions)
    (hx : opts.extra_numeric_types = false)
    (h8 : opts.substitutions .pyUInt8 = none)
    (h16 : opts.substitutions .pyUInt16 = none)
    (h32 : opts.substitutions .pyUInt32 = none) :
    simple_type_to_sql_data_type opts .pyUInt8 = .ok (.integerT 2)
    ∧ simple_type_to_sql_data_type opts .pyUInt16 = .ok (.integerT 2)
    ∧ simple_type_to_sql_data_type opts .pyUInt32 = .ok (.integerT 4) := by
  refine ⟨?_, ?_, ?_⟩ <;>
    simp [simple_type_to_sql_data_type, simple_nonenum_to_sql, hx, h8, h16, h32]

/-- Witness for `c9_unsigned_integer_mapping` at the default options. -/
theorem c9_unsigned_integer_mapping_witness :
    simple_type_to_sql_data_type defaultOptions .pyUInt8 = .ok (.integerT 2)
    ∧ simple_type_to_sql_data_type defaultOptions .pyUInt16 = .ok (.integerT 2)
    ∧ simple_type_to_sql_data_type defaultOptions .pyUInt32 = .ok (.integerT 4) :=
  c9_unsigned_integer_mapping defaultOptions rfl rfl rfl rfl

/-- A non-identity field with declared default `"hi"`. -/
def defaultedField : FieldSig × PyType :=
  (⟨"note", ⟨false, false, false, false⟩, some (.vStr "hi"), none⟩, .pyStr)

/-- The column compiled from `defaultedField` under the default options. -/
def defaultedColumn : Column :=
  ⟨"note", .varCharT none, false, some (constant (.vStr "hi")), false, none⟩

/-- Witness for `c8_column_default_characterization` at a concrete field. -/
theorem c8_column_default_characterization_witness :
    member_to_column defaultOptions defaultedField = .ok defaultedColumn
    ∧ ((defaultedColumn.defaultVal = none ↔
          (defaultedField.1.defaultVal = none ∨ defaultedField.1.defaultVal = some .vNone))
       ∧ (∀ v, defaultedField.1.defaultVal = some v → v ≠ .vNone →
            defaultedColumn.defaultVal = some (constant v))
       ∧ defaultedColumn.identity = defaultedField.1.props.is_identity) :=
  ⟨rfl, c8_column_default_characterization defaultOptions defaultedField defaultedColumn rfl⟩

/-- **C2** (amended): the foreign keys to enum lookup tables are emitted
unconditionally — with foreign-constraint generation disabled, the compiled
table's constraint list consists exactly of the extensible-enum foreign
keys, the `RELATION`-mode plain-enum foreign keys and the `CHECK`-mode
check constraints (so the option also suppresses the `Unique` constraints,
not only the entity-reference and discriminated-union constraints); every
extensible-enum field contributes its foreign key to the enum lookup
table's `id` column, and in `RELATION` mode so does every plain enum
field. -/
theorem ite_isEmpty_getD (l : List α) :
    (if l.isEmpty = true then none else some l).getD [] = l := by
  by_cases h : l.isEmpty = true
  · simp [h, List.isEmpty_iff.mp h]
  · simp [h]

theorem c2_enum_fks_survive_fk_disabled (opts : ConverterOptions)
    (md nm : String) (fs : PyFields) (t : Table)
    (hfk : opts.foreign_constraints = false)
    (hok : dataclass_to_table opts (.pyDataclass md nm fs) = .ok t) :
    ∃ efs, dataclass_extensible_enum_fields (.pyDataclass md nm fs) = .ok efs
      ∧ t.constraints.getD []
          = extensible_fk_constraints opts
              (create_qualified_prefix_id opts (.pyDataclass md nm fs)) efs
            ++ (if opts.enum_mode = .RELATION then
                  relation_fk_constraints opts
                    (create_qualified_prefix_id opts (.pyDataclass md nm fs))
                    (.pyDataclass md nm fs)
                else [])
            ++ (if opts.enum_mode = .CHECK then
                  check_enum_constraints
                    (create_qualified_prefix_id opts (.pyDataclass md nm fs))
                    (.pyDataclass md nm fs)
                else [])
      ∧ (∀ fe ∈ efs,
          Constraint.foreign
              ("fk_" ++ create_qualified_prefix_id opts (.pyDataclass md nm fs)
                ++ "_" ++ fe.1)
              [fe.1]
              ⟨create_qualified_id opts fe.2.module fe.2.name, ["id"]⟩
            ∈ t.constraints.getD [])
      ∧ (opts.enum_mode = .RELATION →
          ∀ fe ∈ dataclass_enum_fields (.pyDataclass md nm fs),
          Constraint.foreign
              ("fk_" ++ create_qualified_prefix_id opts (.pyDataclass md nm fs)
                ++ "_" ++ fe.1)
              [fe.1]
              ⟨create_qualified_id opts fe.2.module fe.2.name, ["id"]⟩
            ∈ t.constraints.getD []) := by
  simp only [dataclass_to_table, hfk, Bool.false_eq_true, if_false, List.nil_append] at hok
  rw [exbind_ok] at hok
  obtain ⟨columns, hcols, hok⟩ := hok
  rw [exbind_ok] at hok
  obtain ⟨efs, hefs, hok⟩ := hok
  refine ⟨efs, hefs, ?_⟩
  cases hpk : pkNameOf (.pyDataclass md nm fs) with
  | none => simp [hpk] at hok
  | some pk =>
    simp only [hpk, pure, Except.pure, Except.ok.injEq] at hok
    have ht : t.constraints.getD []
        = extensible_fk_constraints opts
            (create_qualified_prefix_id opts (.pyDataclass md nm fs)) efs
          ++ (if opts.enum_mode = .RELATION then
                relation_fk_constraints opts
                  (create_qualified_prefix_id opts (.pyDataclass md nm fs))
                  (.pyDataclass md nm fs)
              else [])
          ++ (if opts.enum_mode = .CHECK then
                check_enum_constraints
                  (create_qualified_prefix_id opts (.pyDataclass md nm fs))
                  (.pyDataclass md nm fs)
              else []) := by
      rw [← hok]
      exact ite_isEmpty_getD _
    refine ⟨ht, ?_, ?_⟩
    · intro fe hfe
      rw [ht]
      refine List.mem_append.mpr (Or.inl (List.mem_append.mpr (Or.inl ?_)))
      exact List.mem_map.mpr ⟨fe, hfe, rfl⟩
    · intro hrel fe hfe
      rw [ht]
      refine List.mem_append.mpr (Or.inl (List.mem_append.mpr (Or.inr ?_)))
      rw [if_pos hrel]
      exact List.mem_map.mpr ⟨fe, hfe, rfl⟩

/-- `RELATION` enum mode with foreign-constraint generation disabled. -/
def noFkRelOptions : ConverterOptions :=
  { enum_mode := .RELATION, foreign_constraints := false }

/-- The table compiled from `dualRoleEntity` under `noFkRelOptions`: only
the two mandatory enum foreign keys survive. -/
def dualRoleNoFkTable : Table :=
  { name := .qualifiedId none "Rec"
    columns := [
      ⟨"id", .integerT 8, false, none, false, none⟩,
      ⟨"state", .integerT 4, false, none, false, none⟩,
      ⟨"label", .integerT 4, false, none, false, none⟩ ]
    primaryKey := ["id"]
    constraints := some [
      .foreign "fk_Rec_label" ["label"] ⟨.qualifiedId none "Color", ["id"]⟩,
      .foreign "fk_Rec_state" ["state"] ⟨.qualifiedId none "Color", ["id"]⟩ ]
    description := none }

/-- Witness for `c2_enum_fks_survive_fk_disabled` at `dualRoleEntity` with
foreign constraints disabled under `RELATION` enum mode. -/
theorem c2_enum_fks_survive_fk_disabled_witness :
    dataclass_to_table noFkRelOptions (.pyDataclass "m" "Rec" dualRoleFields)
      = .ok dualRoleNoFkTable
    ∧ (∃ efs, dataclass_extensible_enum_fields (.pyDataclass "m" "Rec" dualRoleFields)
          = .ok efs
        ∧ dualRoleNoFkTable.constraints.getD []
            = extensible_fk_constraints noFkRelOptions
                (create_qualified_prefix_id noFkRelOptions
                  (.pyDataclass "m" "Rec" dualRoleFields)) efs
              ++ (if noFkRelOptions.enum_mode = .RELATION then
                    relation_fk_constraints noFkRelOptions
                      (create_qualified_prefix_id noFkRelOptions
                        (.pyDataclass "m" "Rec" dualRoleFields))
                      (.pyDataclass "m" "Rec" dualRoleFields)
                  else [])
              ++ (if noFkRelOptions.enum_mode = .CHECK then
                    check_enum_constraints
                      (create_qualified_prefix_id noFkRelOptions
                        (.pyDataclass "m" "Rec" dualRoleFields))
                      (.pyDataclass "m" "Rec" dualRoleFields)
                  else [])
        ∧ (∀ fe ∈ efs,
            Constraint.foreign
                ("fk_" ++ create_qualified_prefix_id noFkRelOptions
                    (.pyDataclass "m" "Rec" dualRoleFields) ++ "_" ++ fe.1)
                [fe.1]
                ⟨create_qualified_id noFkRelOptions fe.2.module fe.2.name, ["id"]⟩
              ∈ dualRoleNoFkTable.constraints.getD [])
        ∧ (noFkRelOptions.enum_mode = .RELATION →
            ∀ fe ∈ dataclass_enum_fields (.pyDataclass "m" "Rec" dualRoleFields),
            Constraint.foreign
                ("fk_" ++ create_qualified_prefix_id noFkRelOptions
                    (.pyDataclass "m" "Rec" dualRoleFields) ++ "_" ++ fe.1)
                [fe.1]
                ⟨create_qualified_id noFkRelOptions fe.2.module fe.2.name, ["id"]⟩
              ∈ dualRoleNoFkTable.constraints.getD [])) :=
  ⟨rfl, c2_enum_fks_survive_fk_disabled noFkRelOptions "m" "Rec" dualRoleFields
    dualRoleNoFkTable rfl rfl⟩

/-- **C6**: for every entity type `B`, mapping a member of type `list[B]`
fails with the unsupported-type error ("use a join table") and never
produces an array column — for any options, hence regardless of the
configured array mode (only a type substitution for the list type itself,
excluded by hypothesis, could intercept the lookup). -/
theorem c6_list_of_entity_always_rejected (opts : ConverterOptions) (B : PyType)
    (hsub : opts.substitutions (.pyList B) = none)
    (hBE : is_entity_type B = true) :
    member_to_sql_data_type opts (.pyList B)
      = .error (.typeError
          "use a join table; cannot convert list of entity type to SQL array") := by
  obtain ⟨md, nm, fs, rfl⟩ := entity_is_dataclass hBE
  simp [member_to_sql_data_type, PyType.depth, memberGo, memberBody, hsub,
    is_simple_type, hBE]

/-- Witness for `c6_list_of_entity_always_rejected` under both array modes. -/
theorem c6_list_of_entity_always_rejected_witness :
    member_to_sql_data_type defaultOptions (.pyList entityB)
      = .error (.typeError
          "use a join table; cannot convert list of entity type to SQL array")
    ∧ member_to_sql_data_type jsonArrayOptions (.pyList entityB)
      = .error (.typeError
          "use a join table; cannot convert list of entity type to SQL array") :=
  ⟨c6_list_of_entity_always_rejected defaultOptions entityB rfl rfl,
   c6_list_of_entity_always_rejected jsonArrayOptions entityB rfl rfl⟩

/-- **C7**: for every enum type needing materialization, the synthesized
lookup table has exactly two columns — `id` (identity, non-nullable, of the
enumeration key type, which is a 4-byte integer absent substitutions) and
`value` (non-nullable, a character type limited to `ENUM_NAME_LENGTH = 64`
units) — a primary key of `id` alone, and exactly one `Unique` constraint,
on `value`, named `uq_` followed by the enum name. -/
theorem c7_enum_lookup_table_shape (opts : ConverterOptions) (e : EnumDef)
    (h32 : opts.substitutions .pyInt32 = none)
    (hlbl : opts.substitutions ENUM_LABEL_TYPE = none)
    (hstr : opts.substitutions .pyStr = none) :
    enum_table opts e = .ok
      { name := create_qualified_id opts e.module e.name
        columns := [
          ⟨"id", .integerT 4, false, none, true, none⟩,
          ⟨"value", .varCharT (some ENUM_NAME_LENGTH), false, none, false, none⟩ ]
        primaryKey := ["id"]
        constraints := some [.unique ("uq_" ++ e.name) ["value"]]
        description := none } := by
  have hkey : enumeration_key_type opts = .ok (.integerT 4) := by
    simp [enumeration_key_type, simple_nonenum_to_sql, h32]
  have hval : member_to_sql_data_type opts ENUM_LABEL_TYPE
      = .ok (.varCharT (some ENUM_NAME_LENGTH)) := by
    simp only [ENUM_LABEL_TYPE] at hlbl ⊢
    simp [member_to_sql_data_type, PyType.depth, memberGo, memberBody, hlbl,
      simple_type_to_sql_data_type, simple_nonenum_to_sql, hstr, applyMaxLength]
  simp [enum_table, hkey, hval, Bind.bind, Except.bind, pure, Except.pure]

/-- Witness for `c7_enum_lookup_table_shape` at the `Color` enumeration
under the default options. -/
theorem c7_enum_lookup_table_shape_witness :
    enum_table defaultOptions colorEnum = .ok
      { name := create_qualified_id defaultOptions colorEnum.module colorEnum.name
        columns := [
          ⟨"id", .integerT 4, false, none, true, none⟩,
          ⟨"value", .varCharT (some ENUM_NAME_LENGTH), false, none, false, none⟩ ]
        primaryKey := ["id"]
        constraints := some [.unique ("uq_" ++ colorEnum.name) ["value"]]
        description := none } :=
  c7_enum_lookup_table_shape defaultOptions colorEnum rfl rfl rfl

/-- **C10**: for every enum type whose member values are not all of one
Python type (here: an integer value and a string value both present),
mapping a field of that enum type fails with the error naming the enum —
for every option set, hence in every enum mode, because `enum_value_type`
is resolved before the enum-mode dispatch. -/
theorem c10_mixed_value_enum_always_fails (opts : ConverterOptions) (e : EnumDef)
    (i : Int) (s : String)
    (hi : PyValue.vInt i ∈ e.values) (hs : PyValue.vStr s ∈ e.values)
    (hsub : opts.substitutions (.pyEnum e) = none) :
    member_to_sql_data_type opts (.pyEnum e)
      = .error (.typeError
          ("inconsistent enumeration value types for type " ++ e.name)) := by
  have hlen : 1 < ((e.values.map PyValue.kind).dedup).length := by
    refine one_lt_length_of_two_mem (a := ValueKind.intK) (b := ValueKind.strK)
      ?_ ?_ (by decide)
    · exact List.mem_dedup.mpr (List.mem_map.mpr ⟨_, hi, rfl⟩)
    · exact List.mem_dedup.mpr (List.mem_map.mpr ⟨_, hs, rfl⟩)
  have hev : enum_value_type e
      = .error (.typeError
          ("inconsistent enumeration value types for type " ++ e.name)) := by
    simp only [enum_value_type]
    rw [if_pos hlen]
  simp [member_to_sql_data_type, PyType.depth, memberGo, memberBody, hsub,
    simple_type_to_sql_data_type, hev, Bind.bind, Except.bind]

/-- Witness for `c10_mixed_value_enum_always_fails` at `mixedEnum` in
`RELATION` enum mode (where the value type does not even contribute to the
result, showing it is resolved before the dispatch) and in `CHECK` mode. -/
theorem c10_mixed_value_enum_always_fails_witness :
    member_to_sql_data_type relationOptions (.pyEnum mixedEnum)
      = .error (.typeError
          ("inconsistent enumeration value types for type " ++ mixedEnum.name))
    ∧ member_to_sql_data_type { enum_mode := .CHECK } (.pyEnum mixedEnum)
      = .error (.typeError
          ("inconsistent enumeration value types for type " ++ mixedEnum.name)) :=
  ⟨c10_mixed_value_enum_always_fails relationOptions mixedEnum 1 "x"
      (by simp [mixedEnum]) (by simp [mixedEnum]) rfl,
   c10_mixed_value_enum_always_fails { enum_mode := .CHECK } mixedEnum 1 "x"
      (by simp [mixedEnum]) (by simp [mixedEnum]) rfl⟩

theorem extensible_false_of_all_entity {ms : PyTypes}
    (hne : ms.toList ≠ [])
    (hall : ∀ t ∈ ms.toList, is_entity_type t = true) :
    is_extensible_enum_type (.pyUnion ms) = false := by
  simp only [is_extensible_enum_type]
  cases hl : ms.toList with
  | nil => exact absurd hl hne
  | cons a as =>
    have ha := hall a (by rw [hl]; exact List.mem_cons_self _ _)
    obtain ⟨md, nm, fs, haeq⟩ := entity_is_dataclass ha
    subst haeq
    simp [is_extensible_member]

/-- **C5**: for a field whose type is a union consisting solely of entity
types, the member mapping returns the mapping of the members' common
primary-key type when all members' primary keys have the same type
(first conjunct), and fails with the inconsistent-key-types error —
producing no descriptor — when at least two members' primary-key types
differ (second conjunct). -/
theorem c5_discriminated_union_key_types (opts : ConverterOptions) (ms : PyTypes)
    (hsub : opts.substitutions (.pyUnion ms) = none)
    (hne : ms.toList ≠ [])
    (hall : ∀ t ∈ ms.toList, is_entity_type t = true) :
    (∀ kt, (ms.toList.filterMap pkTypeOf).dedup = [kt] →
        member_to_sql_data_type opts (.pyUnion ms)
          = member_to_sql_data_type opts kt)
    ∧ (∀ kt1 kt2, kt1 ∈ (ms.toList.filterMap pkTypeOf).dedup →
        kt2 ∈ (ms.toList.filterMap pkTypeOf).dedup → kt1 ≠ kt2 →
        member_to_sql_data_type opts (.pyUnion ms)
          = .error (.typeError "mismatching key types in discriminated union")) := by
  have hext := extensible_false_of_all_entity hne hall
  have hallB : ms.toList.all is_entity_type = true := List.all_eq_true.mpr hall
  rw [member_to_sql_eq_body]
  constructor
  · intro kt hkt
    simp only [memberBody, hsub, hext, Bool.false_eq_true, if_false, hallB,
      if_true, hkt]
    rw [if_neg (by simp)]
    have hd : kt.depth ≤ (PyType.pyUnion ms).depth - 1 := by
      have : kt.depth < (PyType.pyUnion ms).depth :=
        disc_key_depth_lt (by rw [hkt]; exact List.mem_cons_self _ _)
      omega
    exact memberGo_eq_member opts hd
  · intro kt1 kt2 h1 h2 hne12
    have hlen := one_lt_length_of_two_mem h1 h2 hne12
    simp only [memberBody, hsub, hext, Bool.false_eq_true, if_false, hallB, if_true]
    rw [if_pos hlen]

/-- Witness for `c5_discriminated_union_key_types`: a same-key union of two
entities maps like their common `int` key, and a union of entities with
2-byte and 4-byte keys fails with the mismatching-key-types error. -/
theorem c5_discriminated_union_key_types_witness :
    member_to_sql_data_type defaultOptions (.pyUnion unionSameKeys)
      = member_to_sql_data_type defaultOptions .pyInt
    ∧ member_to_sql_data_type defaultOptions (.pyUnion unionDiffKeys)
      = .error (.typeError "mismatching key types in discriminated union") :=
  ⟨(c5_discriminated_union_key_types defaultOptions unionSameKeys rfl
      (by decide) (by decide)).1 .pyInt (by decide),
   (c5_discriminated_union_key_types defaultOptions unionDiffKeys rfl
      (by decide) (by decide)).2 .pyInt16 .pyInt32 (by decide) (by decide)
      (by decide)⟩

theorem join_table_entity_shape (opts : ConverterOptions) {owner B : PyType}
    {sig : FieldSig} {jt : Table}
    (hE : is_entity_type owner = true) (hBE : is_entity_type B = true)
    (hok : join_table opts owner (sig, .pyList B) = .ok jt) :
    ∃ pl okt rn ikt uT oT iT,
      pkNameOf owner = some pl ∧ pkTypeOf owner = some okt
      ∧ pkNameOf B = some rn ∧ pkTypeOf B = some ikt
      ∧ member_to_sql_data_type opts .pyUuid = .ok uT
      ∧ member_to_sql_data_type opts okt = .ok oT
      ∧ member_to_sql_data_type opts ikt = .ok iT
      ∧ jt = { name := create_qualified_id opts (moduleOf owner)
                 (create_qualified_prefix_id opts owner ++ "_" ++ sig.fname
                   ++ "_" ++ typeIdName B)
               columns := [
                 ⟨"uuid", uT, false, none, false, none⟩,
                 ⟨create_qualified_prefix_id opts owner ++ "_" ++ sig.fname,
                   oT, false, none, false, none⟩,
                 ⟨create_qualified_prefix_id opts B ++ "_" ++ rn,
                   iT, false, none, false, none⟩ ]
               primaryKey := ["uuid"]
               constraints := some [
                 .foreign ("jk_" ++ (create_qualified_prefix_id opts owner
                     ++ "_" ++ sig.fname))
                   [create_qualified_prefix_id opts owner ++ "_" ++ sig.fname]
                   ⟨create_qualified_id opts (moduleOf owner) (typeIdName owner),
                    [pl]⟩,
                 .foreign ("jk_" ++ (create_qualified_prefix_id opts B
                     ++ "_" ++ rn))
                   [create_qualified_prefix_id opts B ++ "_" ++ rn]
                   ⟨create_qualified_id opts (moduleOf B) (typeIdName B), [rn]⟩ ]
               description := none } := by
  obtain ⟨pl, okt, hpl, hokt⟩ := entity_pk_some hE
  obtain ⟨rn, ikt, hrn, hikt⟩ := entity_pk_some hBE
  simp only [join_table, hpl, hokt, hrn, hikt, hBE, if_true, Bind.bind,
    Except.bind, pure, Except.pure] at hok
  cases hiT : member_to_sql_data_type opts ikt with
  | error e => rw [hiT] at hok; exact absurd hok (by simp)
  | ok iT =>
    rw [hiT] at hok
    cases huT : member_to_sql_data_type opts .pyUuid with
    | error e => rw [huT] at hok; exact absurd hok (by simp)
    | ok uT =>
      rw [huT] at hok
      cases hoT : member_to_sql_data_type opts okt with
      | error e => rw [hoT] at hok; exact absurd hok (by simp)
      | ok oT =>
        rw [hoT] at hok
        simp only [Except.ok.injEq] at hok
        exact ⟨pl, okt, rn, ikt, uT, oT, iT, hpl, hokt, hrn, hikt, rfl, hoT,
          hiT, hok.symm⟩

/-- **C3**: for every entity `owner` (in the input set) with a field of
type `list[B]` where `B` is an entity type, a successfully assembled
catalog contains the synthesized join table: named
`<owner-prefix>_<field>_<ItemTypeName>`, with exactly 3 columns — a
synthetic `uuid` column that is the sole primary key, an owner-key column
of the owner's mapped primary-key type, and an item-key column of the
item's mapped key type — and exactly 2 foreign-key constraints named
`jk_<owner-column>` and `jk_<item-column>` referencing the owner's and the
item's primary keys respectively. -/
theorem c3_join_table_in_catalog (opts : ConverterOptions) (ents : List PyType)
    (owner B : PyType) (sig : FieldSig) (cat : Catalog)
    (hmem : owner ∈ ents) (hE : is_entity_type owner = true)
    (hfield : (sig, PyType.pyList B) ∈ fieldsOf owner)
    (hBE : is_entity_type B = true)
    (hcat : dataclasses_to_catalog opts ents = .ok cat) :
    ∃ jt, join_table opts owner (sig, .pyList B) = .ok jt
      ∧ jt ∈ allCatalogTables cat
      ∧ jt.name = create_qualified_id opts (moduleOf owner)
          (create_qualified_prefix_id opts owner ++ "_" ++ sig.fname
            ++ "_" ++ typeIdName B)
      ∧ jt.columns.length = 3
      ∧ jt.columns.map Column.name =
          ["uuid",
           create_qualified_prefix_id opts owner ++ "_" ++ sig.fname,
           create_qualified_prefix_id opts B ++ "_" ++ (pkNameOf B).getD ""]
      ∧ jt.primaryKey = ["uuid"]
      ∧ (∃ uT oT iT okt ikt,
          pkTypeOf owner = some okt ∧ pkTypeOf B = some ikt
          ∧ member_to_sql_data_type opts .pyUuid = .ok uT
          ∧ member_to_sql_data_type opts okt = .ok oT
          ∧ member_to_sql_data_type opts ikt = .ok iT
          ∧ jt.columns.map Column.dataType = [uT, oT, iT])
      ∧ jt.constraints = some [
          .foreign ("jk_" ++ (create_qualified_prefix_id opts owner
              ++ "_" ++ sig.fname))
            [create_qualified_prefix_id opts owner ++ "_" ++ sig.fname]
            ⟨create_qualified_id opts (moduleOf owner) (typeIdName owner),
             [(pkNameOf owner).getD ""]⟩,
          .foreign ("jk_" ++ (create_qualified_prefix_id opts B ++ "_"
              ++ (pkNameOf B).getD ""))
            [create_qualified_prefix_id opts B ++ "_" ++ (pkNameOf B).getD ""]
            ⟨create_qualified_id opts (moduleOf B) (typeIdName B),
             [(pkNameOf B).getD ""]⟩ ] := by
  -- the owner is among the compiled entity types
  have howner : owner ∈ sortByKey typeIdName
      ((collectReferenced ents).filter is_entity_type) := by
    refine mem_sortByKey.mpr (List.mem_filter.mpr ⟨?_, hE⟩)
    exact List.mem_dedup.mpr (List.mem_append.mpr (Or.inl hmem))
  -- destructure the catalog computation
  simp only [dataclasses_to_catalog, Bind.bind] at hcat
  rw [exbind_ok'] at hcat
  obtain ⟨structs, hstructs, hcat⟩ := hcat
  rw [exbind_ok'] at hcat
  obtain ⟨tablePairs, htp, hcat⟩ := hcat
  rw [exbind_ok'] at hcat
  obtain ⟨regularPairs, hrp, hcat⟩ := hcat
  rw [exbind_ok'] at hcat
  obtain ⟨extLists, hel, hcat⟩ := hcat
  rw [exbind_ok'] at hcat
  obtain ⟨extPairs, hep, hcat⟩ := hcat
  rw [exbind_ok'] at hcat
  obtain ⟨jPairs, hjp, hcat⟩ := hcat
  simp only [pure, Except.pure, Except.ok.injEq] at hcat
  -- extract the join table for (owner, field)
  simp only [join_pairs, Bind.bind] at hjp
  rw [exbind_ok'] at hjp
  obtain ⟨ll, hll, hjp⟩ := hjp
  simp only [pure, Except.pure, Except.ok.injEq] at hjp
  obtain ⟨ys, hys, hysmem⟩ := mapE_ok_mem hll howner
  have hrelmem : (sig, PyType.pyList B) ∈ relationship_fields opts owner := by
    refine List.mem_filter.mpr ⟨hfield, ?_⟩
    simp [is_relationship, hBE]
  obtain ⟨pr, hpr, hprmem⟩ := mapE_ok_mem hys hrelmem
  rw [exbind_ok'] at hpr
  obtain ⟨jt, hjt, hpr⟩ := hpr
  simp only [pure, Except.pure, Except.ok.injEq] at hpr
  -- membership in the assembled catalog
  have hjmem : jt ∈ allCatalogTables cat := by
    rw [← hcat, allCatalogTables_buildCatalog]
    refine mem_dictValues_addPairs.mpr (Or.inr ⟨pr, ?_, by rw [← hpr]⟩)
    rw [← hjp]
    exact List.mem_flatten.mpr ⟨ys, hysmem, hprmem⟩
  -- shape
  obtain ⟨pl, okt, rn, ikt, uT, oT, iT, hpl, hokt, hrn, hikt, huT, hoT, hiT,
    hshape⟩ := join_table_entity_shape opts hE hBE hjt
  refine ⟨jt, hjt, hjmem, ?_⟩
  subst hshape
  exact ⟨rfl, by simp, by simp [hrn], rfl,
    ⟨uT, oT, iT, okt, ikt, hokt, hikt, huT, hoT, hiT, rfl⟩, by simp [hrn, hpl]⟩

/-- The catalog assembled from `entityA` (which owns `items : list[B]`)
under the default options. -/
def catalogAB : Catalog :=
  ⟨[{ name := ""
      enums := []
      structs := []
      tables := [
        { name := .qualifiedId none "A"
          columns := [⟨"id", .integerT 8, false, none, false, none⟩]
          primaryKey := ["id"]
          constraints := none
          description := none },
        { name := .qualifiedId none "B"
          columns := [⟨"id", .integerT 8, false, none, false, none⟩]
          primaryKey := ["id"]
          constraints := none
          description := none },
        { name := .qualifiedId none "A_items_B"
          columns := [
            ⟨"uuid", .uuidT, false, none, false, none⟩,
            ⟨"A_items", .integerT 8, false, none, false, none⟩,
            ⟨"B_id", .integerT 8, false, none, false, none⟩ ]
          primaryKey := ["uuid"]
          constraints := some [
            .foreign "jk_A_items" ["A_items"] ⟨.qualifiedId none "A", ["id"]⟩,
            .foreign "jk_B_id" ["B_id"] ⟨.qualifiedId none "B", ["id"]⟩ ]
          description := none } ] }]⟩

/-- Witness for `c3_join_table_in_catalog` at `A {id : int, items : list[B]}`. -/
theorem c3_join_table_in_catalog_witness :
    dataclasses_to_catalog defaultOptions [entityA] = .ok catalogAB
    ∧ (∃ jt, join_table defaultOptions entityA (reqFieldSig "items", .pyList entityB)
          = .ok jt
        ∧ jt ∈ allCatalogTables catalogAB
        ∧ jt.name = create_qualified_id defaultOptions (moduleOf entityA)
            (create_qualified_prefix_id defaultOptions entityA ++ "_"
              ++ (reqFieldSig "items").fname ++ "_" ++ typeIdName entityB)
        ∧ jt.columns.length = 3
        ∧ jt.columns.map Column.name =
            ["uuid",
             create_qualified_prefix_id defaultOptions entityA ++ "_"
               ++ (reqFieldSig "items").fname,
             create_qualified_prefix_id defaultOptions entityB ++ "_"
               ++ (pkNameOf entityB).getD ""]
        ∧ jt.primaryKey = ["uuid"]
        ∧ (∃ uT oT iT okt ikt,
            pkTypeOf entityA = some okt ∧ pkTypeOf entityB = some ikt
            ∧ member_to_sql_data_type defaultOptions .pyUuid = .ok uT
            ∧ member_to_sql_data_type defaultOptions okt = .ok oT
            ∧ member_to_sql_data_type defaultOptions ikt = .ok iT
            ∧ jt.columns.map Column.dataType = [uT, oT, iT])
        ∧ jt.constraints = some [
            .foreign ("jk_" ++ (create_qualified_prefix_id defaultOptions entityA
                ++ "_" ++ (reqFieldSig "items").fname))
              [create_qualified_prefix_id defaultOptions entityA ++ "_"
                ++ (reqFieldSig "items").fname]
              ⟨create_qualified_id defaultOptions (moduleOf entityA)
                 (typeIdName entityA), [(pkNameOf entityA).getD ""]⟩,
            .foreign ("jk_" ++ (create_qualified_prefix_id defaultOptions entityB
                ++ "_" ++ (pkNameOf entityB).getD ""))
              [create_qualified_prefix_id defaultOptions entityB ++ "_"
                ++ (pkNameOf entityB).getD ""]
              ⟨create_qualified_id defaultOptions (moduleOf entityB)
                 (typeIdName entityB), [(pkNameOf entityB).getD ""]⟩ ]) :=
  ⟨rfl, c3_join_table_in_catalog defaultOptions [entityA] entityA entityB
    (reqFieldSig "items") catalogAB (by decide) rfl (by decide) rfl rfl⟩
